import Mathlib

/-!
Verification development for the nifty50-stocks-analysis-etl repository
(`src/history_data_generation/`): three AWS-Lambda jobs that fetch economic
and market data and publish it as CSV to date-partitioned S3 keys.

Shallow embedding conventions:
* A pandas row is an association list of column name to cell value; a
  `DataFrame` is the list of its rows (`df.empty` is row-emptiness; the
  pandas index is modelled as an ordinary column).
* External collaborators (HTTP responses, yfinance, the S3 client) are
  explicit parameters; a Python exception raised by a collaborator is an
  `Except.error`, and a handler that raises returns `Except.error`.
* Each handler returns, besides its Python return value, a trace of the
  `s3_upload` invocations it made (the DataFrame arguments) and of the
  storage writes that succeeded, so "the publisher is never invoked" and
  "no storage write happens" are observable.
-/

namespace Nifty50Etl

/-- A scalar cell value in a row (string, number, or Python `None`). -/
inductive Value where
  | str (s : String)
  | num (n : Int)
  | null
deriving DecidableEq, Repr

/-- One pandas row: column name ↦ value. -/
abbrev Row := List (String × Value)

/-- A pandas DataFrame, modelled as its list of rows. -/
abbrev DataFrame := List Row

/-- A calendar date as used by `datetime.today()` (the Lambda runtime clock
is UTC, so this is the current UTC calendar date). -/
structure Date where
  year : Nat
  month : Nat
  day : Nat
deriving DecidableEq, Repr

/-- `strftime` zero-pads `%m`/`%d` to two digits. -/
def fmt2 (n : Nat) : String :=
  if n < 10 then "0" ++ toString n else toString n

/-- `strftime('%Y')` zero-pads the year to four digits. -/
def fmtY (n : Nat) : String :=
  if n < 10 then "000" ++ toString n
  else if n < 100 then "00" ++ toString n
  else if n < 1000 then "0" ++ toString n
  else toString n

/-- One successful object-storage write: key and body uploaded. -/
structure S3Write where
  key : String
  body : DataFrame
deriving DecidableEq, Repr

/-- Outcome of the S3 client's `upload_fileobj` call, an external
collaborator: `ok` or a raised exception. -/
abbrev PutOutcome := Except String Unit

/-! ## fed_interets.py -/

/-- The S3 key built inline in `fed_interets.s3_upload` (lines 30-31):
`f"us_fed_rates/year={...%Y}/month={...%m}/day={...%d}/us_fed_rates.csv"`. -/
def fedKey (d : Date) : String :=
  "us_fed_rates/year=" ++ fmtY d.year ++ "/month=" ++ fmt2 d.month ++
    "/day=" ++ fmt2 d.day ++ "/us_fed_rates.csv"

/-- `fed_interets.s3_upload`: returns (control-flow outcome, successful
writes).  It guards the empty DataFrame (lines 16-18) and returns without
touching storage; otherwise it performs one write, re-raising any storage
error. -/
def fed_s3_upload (put : PutOutcome) (d : Date) (df : DataFrame) :
    Except String Unit × List S3Write :=
  if df.isEmpty then (Except.ok (), [])
  else
    match put with
    | Except.ok _ => (Except.ok (), [⟨fedKey d, df⟩])
    | Except.error e => (Except.error e, [])

/-- Outcome of the interest-rate job's single external fetch
(`requests.get` + `raise_for_status` + `.json()`): either a raised
exception (`RequestException`, or JSON `ValueError`/`TypeError`), or the
parsed JSON object, modelled as a mapping from top-level field name to a
list of observation rows. -/
inductive FedFetch where
  | failure (cause : String)
  | success (data : List (String × List Row))

/-- What one job invocation did: its Python outcome, the DataFrame
arguments of every `s3_upload` call it made, and the storage writes. -/
structure JobTrace (ρ : Type) where
  result : Except String ρ
  uploads : List DataFrame
  writes : List S3Write

/-- `fed_interets.lambda_handler`: re-raises fetch errors; on success takes
`data.get("observations", [])`, returns `None` with a warning when that
list is empty, otherwise builds the DataFrame and calls `s3_upload`. -/
def fed_lambda_handler (fetch : FedFetch) (put : PutOutcome) (d : Date) :
    JobTrace Unit :=
  match fetch with
  | FedFetch.failure e => ⟨Except.error e, [], []⟩
  | FedFetch.success data =>
    let observations := (data.lookup "observations").getD []
    if observations.isEmpty then ⟨Except.ok (), [], []⟩
    else
      let df : DataFrame := observations
      let r := fed_s3_upload put d df
      ⟨r.1, [df], r.2⟩

/-! ## macroeconomics_data_fetcher.py -/

/-- The S3 key built inline in `macroeconomics_data_fetcher.s3_upload`
(line 21). -/
def macroKey (d : Date) : String :=
  "macroeconimics/year=" ++ fmtY d.year ++ "/month=" ++ fmt2 d.month ++
    "/day=" ++ fmt2 d.day ++ "/macroeconomic_metrics.csv"

/-- `macroeconomics_data_fetcher.s3_upload`: serializes and writes
unconditionally (no empty-DataFrame guard in the source, lines 13-25),
re-raising any storage error. -/
def macro_s3_upload (put : PutOutcome) (d : Date) (df : DataFrame) :
    Except String Unit × List S3Write :=
  match put with
  | Except.ok _ => (Except.ok (), [⟨macroKey d, df⟩])
  | Except.error e => (Except.error e, [])

/-- Outcome of one indicator's `requests.get` + `.json()`: a raised
transport error, a raised JSON-decoding error, or a parsed body whose
`"values"` field (if present) maps indicator id ↦ country code ↦
(year ↦ value).  (A present-but-non-dict `values` is not representable in
this typed model; it fails the same `isinstance` check as an absent one.) -/
inductive MacroResp where
  | reqError (cause : String)
  | jsonError (cause : String)
  | body (values : Option (List (String × List (String × List (String × Value)))))

/-- The per-indicator extraction (lines 50-62): the combined check
`not isinstance(values, dict) or indicator_id not in values or
country_code not in values[indicator_id]` raises `KeyError`; otherwise the
indicator's rows are built from `values[indicator_id][country_code]`. -/
def macroExtract (country name id : String)
    (values : Option (List (String × List (String × List (String × Value))))) :
    Except String DataFrame :=
  match values with
  | none => Except.error ("Missing or malformed data for " ++ name)
  | some vs =>
    match vs.lookup id with
    | none => Except.error ("Missing or malformed data for " ++ name)
    | some byCountry =>
      match byCountry.lookup country with
      | none => Except.error ("Missing or malformed data for " ++ name)
      | some valuesDict =>
        Except.ok (valuesDict.map fun yv =>
          [("indicator_name", Value.str name), ("year", Value.str yv.1),
           ("value", yv.2)])

/-- The body of one loop iteration of `macro lambda_handler` for indicator
`(name, id)`: fetch (re-raising request/JSON errors) then extract
(re-raising extraction errors). -/
def macroUnitResult (country : String) (resp : String → MacroResp)
    (u : String × String) : Except String DataFrame :=
  match resp u.2 with
  | MacroResp.reqError e => Except.error e
  | MacroResp.jsonError e => Except.error e
  | MacroResp.body values => macroExtract country u.1 u.2 values

/-- The `for indicator_name, indicator_id in indicators.items()` loop:
collects one DataFrame per indicator into `all_data`, aborting at the
first raised error. -/
def macro_process (country : String) (resp : String → MacroResp) :
    List (String × String) → Except String (List DataFrame)
  | [] => Except.ok []
  | u :: rest =>
    match macroUnitResult country resp u with
    | Except.error e => Except.error e
    | Except.ok df =>
      match macro_process country resp rest with
      | Except.error e => Except.error e
      | Except.ok dfs => Except.ok (df :: dfs)

/-- `macroeconomics_data_fetcher.lambda_handler`: raises when `INDICATORS`
is empty (line 34); runs the indicator loop, re-raising its first error;
if `all_data` is non-empty, concatenates (`pd.concat`, ignore_index) and
uploads; otherwise raises `ValueError("No data fetched for any
indicator")` (line 73). -/
def macro_lambda_handler (country : String)
    (indicators : List (String × String)) (resp : String → MacroResp)
    (put : PutOutcome) (d : Date) : JobTrace Unit :=
  if indicators.isEmpty then
    ⟨Except.error "INDICATORS is empty in environment variables", [], []⟩
  else
    match macro_process country resp indicators with
    | Except.error e => ⟨Except.error e, [], []⟩
    | Except.ok allData =>
      if allData.isEmpty then
        ⟨Except.error "No data fetched for any indicator", [], []⟩
      else
        let combined := allData.flatten
        let r := macro_s3_upload put d combined
        ⟨r.1, [combined], r.2⟩

/-! ## nifty50_history_data_fetcher.py -/

/-- The behaviour of the yfinance collaborator for one stock: the outcome
of `stock.history(...)` and of `stock.info` (each may raise, modelled as
`Except.error`; an exception in the `Ticker` constructor is an erroring
`history`). -/
structure TickerBehavior where
  history : Except String DataFrame
  info : Except String (List (String × Value))

/-- `stock_info.get(k)` — `None` when the field is absent. -/
def infoGet (info : List (String × Value)) (k : String) : Value :=
  (info.lookup k).getD Value.null

/-- `data[key] = value`: broadcast a scalar onto every row as column `key`
(replacing any existing binding; column position is not modelled). -/
def setCol (df : DataFrame) (k : String) (v : Value) : DataFrame :=
  df.map fun row => (row.filter fun kv => kv.1 ≠ k) ++ [(k, v)]

/-- The metadata mapping of `fetch_stock_price` (lines 33-51). -/
def stockMetadata (stock : String) (info : List (String × Value)) :
    List (String × Value) :=
  [("stock_name", Value.str stock),
   ("market_cap", infoGet info "marketCap"),
   ("beta", infoGet info "beta"),
   ("pe_ratio", infoGet info "trailingPE"),
   ("dividend_yield", infoGet info "dividendYield"),
   ("roe", infoGet info "returnOnEquity"),
   ("roce", infoGet info "returnOnCapitalEmployed"),
   ("debt_to_equity", infoGet info "debtToEquity"),
   ("interest_coverage", infoGet info "interestCoverage"),
   ("pledged_percentage", infoGet info "pledgeRatio"),
   ("book_value", infoGet info "bookValue"),
   ("price_to_book", infoGet info "priceToBook"),
   ("price_to_earnings", infoGet info "trailingPE"),
   ("forward_pe", infoGet info "forwardPE"),
   ("enterprise_value", infoGet info "enterpriseValue"),
   ("ev_to_revenue", infoGet info "enterpriseToRevenue"),
   ("ev_to_ebitda", infoGet info "enterpriseToEbitda")]

/-- `fetch_stock_price` (lines 18-60): total — the whole body is wrapped in
`try`/`except` returning an empty DataFrame, so any collaborator exception
yields `[]`; an empty/absent `stock.info` also yields `[]` with a warning;
otherwise the metadata is broadcast onto each history row (when the
history is non-empty) and the history returned. -/
def fetch_stock_price (stock : String) (b : TickerBehavior) : DataFrame :=
  match b.history with
  | Except.error _ => []
  | Except.ok data =>
    match b.info with
    | Except.error _ => []
    | Except.ok info =>
      if info.isEmpty then []
      else if data.isEmpty then data
      else (stockMetadata stock info).foldl (fun df kv => setCol df kv.1 kv.2) data

/-- The S3 key built inline in `nifty50_history_data_fetcher.s3_upload`
(line 70). -/
def niftyKey (d : Date) : String :=
  "stocks_data/history/year=" ++ fmtY d.year ++ "/month=" ++ fmt2 d.month ++
    "/day=" ++ fmt2 d.day ++ "/nifty50_stock_history_data.csv"

/-- `nifty50_history_data_fetcher.s3_upload`: writes unconditionally (no
empty-DataFrame guard in the source, lines 62-74), re-raising any storage
error. -/
def nifty_s3_upload (put : PutOutcome) (d : Date) (df : DataFrame) :
    Except String Unit × List S3Write :=
  match put with
  | Except.ok _ => (Except.ok (), [⟨niftyKey d, df⟩])
  | Except.error e => (Except.error e, [])

/-- The column-name normalization of line 94:
`.str.lower().str.replace(" ", "_", regex=True)`, i.e. per character:
lower-case it, then turn a space into an underscore (the pattern being the
single-character string `" "`, the replace is character-wise). -/
def normalizeKey (s : String) : String :=
  ⟨s.data.map fun c => if c.toLower = ' ' then '_' else c.toLower⟩

/-- Normalization applied to one row's keys. -/
def normalizeRow (r : Row) : Row :=
  r.map fun kv => (normalizeKey kv.1, kv.2)

/-- The collection loop over `as_completed` (lines 87-90): keep the
non-empty results, in completion order. -/
def nifty_collect (completed : List DataFrame) : List DataFrame :=
  completed.filter fun df => !df.isEmpty

/-- `nifty50_history_data_fetcher.lambda_handler`, from the point where
the per-stock futures have completed: `completed` is the list of
`fetch_stock_price` results in completion order (an arbitrary permutation
of the per-stock results).  Empty results are dropped; if nothing remains
the handler returns the `{"message": "No data retrieved"}` payload;
otherwise the survivors are concatenated (`pd.concat` + `reset_index`,
the index being modelled as an ordinary column), the column names of the
merged frame are normalized, and the result uploaded. -/
def nifty_lambda_handler (completed : List DataFrame) (put : PutOutcome)
    (d : Date) : JobTrace (Option String) :=
  let mainDfList := nifty_collect completed
  if mainDfList.isEmpty then
    ⟨Except.ok (some "No data retrieved"), [], []⟩
  else
    let mainDf := (mainDfList.flatten).map normalizeRow
    let r := nifty_s3_upload put d mainDf
    ⟨r.1.map fun _ => none, [mainDf], r.2⟩

/-! ## Timeouts of the external calls -/

/-- The `timeout=10` argument of `requests.get` in `fed_interets.py`
line 49. -/
def fed_request_timeout : Option Nat := some 10

/-- The `timeout=10` argument of `requests.get` in
`macroeconomics_data_fetcher.py` line 40. -/
def macro_request_timeout : Option Nat := some 10

/-- `nifty50_history_data_fetcher.fetch_stock_price` passes no explicit
timeout to `stock.history(start=..., end=...)` (line 24). -/
def nifty_explicit_timeout : Option Nat := none

/-- Modelled from the spec: the yfinance collaborator's configurable
default timeout for the underlying external call, which the spec records
as 10 time-units ("source uses 10 time-units; preserve as a configurable
default"); the collaborator's own code is not part of this repository. -/
def yf_history_default_timeout : Nat := 10

/-- The timeout effectively applied to the stock-history job's external
call: the explicit argument when given, else the collaborator default. -/
def nifty_effective_timeout : Nat :=
  nifty_explicit_timeout.getD yf_history_default_timeout

/-! ## The Partition Key Builder of the spec -/

/-- The Partition Key Builder as the spec words it:
`build(prefix, filename, now) -> prefix + "/year=" + YYYY + "/month=" +
MM + "/day=" + DD + "/" + filename`. -/
def build (pre filename : String) (d : Date) : String :=
  pre ++ "/year=" ++ fmtY d.year ++ "/month=" ++ fmt2 d.month ++
    "/day=" ++ fmt2 d.day ++ "/" ++ filename

end Nifty50Etl

/-! ## Theorems -/

namespace Nifty50Etl

/-- C4: for every (prefix, filename, date) the inline partition keys of all
three jobs equal `prefix + "/year=" + YYYY + "/month=" + MM + "/day=" + DD
+ "/" + filename` as built by the spec's Partition Key Builder from the
current calendar date, and the builder is a pure function of its inputs:
two calls with identical inputs yield an identical key. -/
theorem partition_keys_match_builder_and_pure (p f : String) (d : Date) :
    fedKey d = build "us_fed_rates" "us_fed_rates.csv" d ∧
    macroKey d = build "macroeconimics" "macroeconomic_metrics.csv" d ∧
    niftyKey d = build "stocks_data/history" "nifty50_stock_history_data.csv" d ∧
    build p f d = build p f d := by
  refine ⟨?_, ?_, ?_, rfl⟩ <;>
    simp [fedKey, macroKey, niftyKey, build, String.append_assoc]

/-- C7: the interest-rate and macro-indicator jobs pass `timeout=10` to
their external HTTP calls, and the stock-history job's external call runs
with the collaborator's default timeout of 10 (no explicit argument is
passed), so every job's underlying external call is made with a bounded
timeout whose default is 10 time-units. -/
theorem every_external_call_timeout_ten :
    fed_request_timeout = some 10 ∧
    macro_request_timeout = some 10 ∧
    nifty_effective_timeout = 10 := by
  refine ⟨rfl, rfl, rfl⟩

end Nifty50Etl

namespace Nifty50Etl

/-- Helper: a failing unit anywhere in the indicator list makes the whole
loop abort with an error. -/
lemma macro_process_error_of_mem (country : String) (resp : String → MacroResp)
    (inds : List (String × String))
    (h : ∃ u ∈ inds, ∃ e, macroUnitResult country resp u = Except.error e) :
    ∃ e, macro_process country resp inds = Except.error e := by
  induction inds with
  | nil =>
    obtain ⟨u, hu, _⟩ := h
    exact absurd hu (List.not_mem_nil u)
  | cons v rest ih =>
    obtain ⟨u, hu, e, he⟩ := h
    cases hv : macroUnitResult country resp v with
    | error e' => exact ⟨e', by simp [macro_process, hv]⟩
    | ok df =>
      rcases List.mem_cons.mp hu with rfl | hre
      · rw [hv] at he; exact absurd he (by simp)
      · obtain ⟨e2, he2⟩ := ih ⟨u, hre, e, he⟩
        exact ⟨e2, by simp [macro_process, hv, he2]⟩

/-- C1: in every job, when the set of successful fetch results is empty,
`s3_upload` is never invoked: the interest-rate handler whose single fetch
raised, the macro handler all of whose units failed, and the stock-history
handler all of whose completed fetches came back empty all make zero
`s3_upload` calls. -/
theorem no_publish_when_zero_successes :
    (∀ (e : String) (put : PutOutcome) (d : Date),
      (fed_lambda_handler (FedFetch.failure e) put d).uploads = []) ∧
    (∀ (country : String) (inds : List (String × String))
       (resp : String → MacroResp) (put : PutOutcome) (d : Date),
      (∀ u ∈ inds, ∃ e, macroUnitResult country resp u = Except.error e) →
      (macro_lambda_handler country inds resp put d).uploads = []) ∧
    (∀ (completed : List DataFrame) (put : PutOutcome) (d : Date),
      (∀ df ∈ completed, df = ([] : DataFrame)) →
      (nifty_lambda_handler completed put d).uploads = []) := by
  refine ⟨fun _ _ _ => rfl, ?_, ?_⟩
  · intro country inds resp put d h
    cases inds with
    | nil => rfl
    | cons v rest =>
      obtain ⟨e, he⟩ :=
        macro_process_error_of_mem country resp (v :: rest)
          ⟨v, by simp, h v (by simp)⟩
      simp [macro_lambda_handler, he]
  · intro completed put d h
    have hc : nifty_collect completed = [] := by
      refine List.filter_eq_nil_iff.mpr ?_
      intro df hdf
      simp [h df hdf]
    simp [nifty_lambda_handler, hc]

/-- Witness for C1 at concrete inputs: one failed macro unit and an
all-empty stock-history batch, each yielding zero publisher calls. -/
theorem no_publish_when_zero_successes_witness :
    (fed_lambda_handler (FedFetch.failure "boom") (Except.ok ())
        ⟨2025, 1, 2⟩).uploads = [] ∧
    (macro_lambda_handler "IN" [("gdp", "NY.GDP.MKTP.CD")]
        (fun _ => MacroResp.body none) (Except.ok ())
        ⟨2025, 1, 2⟩).uploads = [] ∧
    (nifty_lambda_handler [[], []] (Except.ok ()) ⟨2025, 1, 2⟩).uploads = [] :=
  ⟨no_publish_when_zero_successes.1 "boom" (Except.ok ()) ⟨2025, 1, 2⟩,
   no_publish_when_zero_successes.2.1 "IN" [("gdp", "NY.GDP.MKTP.CD")]
     (fun _ => MacroResp.body none) (Except.ok ()) ⟨2025, 1, 2⟩
     (by intro u hu
         refine ⟨"Missing or malformed data for gdp", ?_⟩
         simp only [List.mem_singleton] at hu
         subst hu
         rfl),
   no_publish_when_zero_successes.2.2 [[], []] (Except.ok ()) ⟨2025, 1, 2⟩
     (by decide)⟩

/-- C2: under the strict policy of the macro-indicator job, any indicator
set containing at least one failing unit makes the batch abort with a
batch-level error, with no `s3_upload` call and no storage write — even
when the other units would succeed. -/
theorem strict_policy_failure_aborts_without_publish
    (country : String) (inds : List (String × String))
    (resp : String → MacroResp) (put : PutOutcome) (d : Date)
    (h : ∃ u ∈ inds, ∃ e, macroUnitResult country resp u = Except.error e) :
    (∃ e, (macro_lambda_handler country inds resp put d).result =
        Except.error e) ∧
    (macro_lambda_handler country inds resp put d).uploads = [] ∧
    (macro_lambda_handler country inds resp put d).writes = [] := by
  obtain ⟨e, he⟩ := macro_process_error_of_mem country resp inds h
  cases inds with
  | nil =>
    obtain ⟨u, hu, _⟩ := h
    exact absurd hu (List.not_mem_nil u)
  | cons v rest =>
    refine ⟨⟨e, ?_⟩, ?_, ?_⟩ <;> simp [macro_lambda_handler, he]

/-- Witness for C2 at a concrete input: one failing and one succeeding
indicator; the batch errors and nothing is uploaded or written. -/
theorem strict_policy_failure_aborts_without_publish_witness :
    (∃ e, (macro_lambda_handler "IN"
        [("bad", "B"), ("gdp", "G")]
        (fun id => if id = "G"
          then MacroResp.body (some [("G", [("IN", [("2020", Value.num 7)])])])
          else MacroResp.reqError "timeout")
        (Except.ok ()) ⟨2025, 1, 2⟩).result = Except.error e) ∧
    (macro_lambda_handler "IN"
        [("bad", "B"), ("gdp", "G")]
        (fun id => if id = "G"
          then MacroResp.body (some [("G", [("IN", [("2020", Value.num 7)])])])
          else MacroResp.reqError "timeout")
        (Except.ok ()) ⟨2025, 1, 2⟩).uploads = [] ∧
    (macro_lambda_handler "IN"
        [("bad", "B"), ("gdp", "G")]
        (fun id => if id = "G"
          then MacroResp.body (some [("G", [("IN", [("2020", Value.num 7)])])])
          else MacroResp.reqError "timeout")
        (Except.ok ()) ⟨2025, 1, 2⟩).writes = [] :=
  strict_policy_failure_aborts_without_publish "IN"
    [("bad", "B"), ("gdp", "G")] _ (Except.ok ()) ⟨2025, 1, 2⟩
    ⟨("bad", "B"), by simp, "timeout", rfl⟩

end Nifty50Etl

namespace Nifty50Etl

/-- Helper: dropping the empty DataFrames does not change the total row
count, since each dropped DataFrame has zero rows. -/
lemma sum_length_nifty_collect (l : List DataFrame) :
    ((nifty_collect l).map List.length).sum = (l.map List.length).sum := by
  induction l with
  | nil => rfl
  | cons df rest ih =>
    by_cases h : df.isEmpty
    · have hnil : df = [] := List.isEmpty_iff.mp h
      subst hnil
      simpa [nifty_collect, List.filter_cons] using ih
    · simp only [nifty_collect] at ih
      simp [nifty_collect, List.filter_cons, h, ih]

/-- Helper: total rows uploaded by the stock-history handler equal the
total rows across the collected (non-empty) results. -/
lemma nifty_uploads_length (completed : List DataFrame) (put : PutOutcome)
    (d : Date) :
    (((nifty_lambda_handler completed put d).uploads).map List.length).sum =
      ((nifty_collect completed).map List.length).sum := by
  by_cases h : (nifty_collect completed).isEmpty
  · have hnil : nifty_collect completed = [] := List.isEmpty_iff.mp h
    simp [nifty_lambda_handler, h, hnil]
  · simp [nifty_lambda_handler, h, List.length_flatten, Function.comp_def,
      List.length_map]

/-- C3: under the tolerant policy of the stock-history job, however the
concurrent fetches complete (any permutation of the per-stock results),
the total number of rows in the published Dataset is the sum over the
stocks of the row count each stock's fetch produced — so every successful
unit contributes exactly its own fetched rows and every failed unit (an
empty result) contributes zero rows without affecting the others. -/
theorem tolerant_policy_row_contributions (stocks : List String)
    (behave : String → TickerBehavior) (completed : List DataFrame)
    (put : PutOutcome) (d : Date)
    (hperm : completed.Perm
      (stocks.map fun s => fetch_stock_price s (behave s))) :
    (((nifty_lambda_handler completed put d).uploads).map List.length).sum =
      (stocks.map fun s => (fetch_stock_price s (behave s)).length).sum := by
  rw [nifty_uploads_length, sum_length_nifty_collect]
  have := (hperm.map List.length).sum_eq
  rw [this, List.map_map]
  rfl

/-- The yfinance behaviour used by the C3 witness: stock "B" succeeds with
two history rows and non-empty info, every other stock raises. -/
def witnessBehavior : String → TickerBehavior := fun s =>
  if s = "B" then
    ⟨Except.ok [[("Close", Value.num 1)], [("Close", Value.num 2)]],
     Except.ok [("marketCap", Value.num 5)]⟩
  else ⟨Except.error "connection reset", Except.ok []⟩

/-- Witness for C3 at a concrete input: stocks ["A", "B"] where "A" fails
and "B" yields two rows; the published Dataset carries exactly two rows. -/
theorem tolerant_policy_row_contributions_witness :
    (((nifty_lambda_handler
        (["A", "B"].map fun s => fetch_stock_price s (witnessBehavior s))
        (Except.ok ()) ⟨2025, 1, 2⟩).uploads).map List.length).sum =
      (["A", "B"].map fun s =>
        (fetch_stock_price s (witnessBehavior s)).length).sum :=
  tolerant_policy_row_contributions ["A", "B"] witnessBehavior
    (["A", "B"].map fun s => fetch_stock_price s (witnessBehavior s))
    (Except.ok ()) ⟨2025, 1, 2⟩ (List.Perm.refl _)

end Nifty50Etl

namespace Nifty50Etl

/-- C10: `fetch_stock_price` is total — in this embedding it returns a
`DataFrame` for every collaborator behaviour, never an `Except.error`, as
the whole source body is wrapped in a `try`/`except` that returns instead
of raising — and whenever the collaborator raises (in `history` or in
`info`) or reports empty/absent stock info, the result is the empty
DataFrame. -/
theorem fetch_stock_price_total (s : String) (b : TickerBehavior)
    (h : (∃ e, b.history = Except.error e) ∨
         (∃ e, b.info = Except.error e) ∨ b.info = Except.ok []) :
    fetch_stock_price s b = [] := by
  obtain ⟨hst, inf⟩ := b
  cases hst with
  | error e2 => rfl
  | ok data =>
    cases inf with
    | error e2 => rfl
    | ok infl =>
      rcases h with ⟨e, he⟩ | ⟨e, he⟩ | he
      · exact absurd he (by simp)
      · exact absurd he (by simp)
      · have hinf : infl = [] := by simpa using he
        subst hinf
        rfl

/-- Witness for C10 at concrete inputs: a raising history call, a raising
info call, and an empty info response each yield the empty DataFrame. -/
theorem fetch_stock_price_total_witness :
    fetch_stock_price "TCS" ⟨Except.error "connection reset",
      Except.ok [("marketCap", Value.num 5)]⟩ = [] ∧
    fetch_stock_price "TCS" ⟨Except.ok [[("Close", Value.num 1)]],
      Except.error "rate limited"⟩ = [] ∧
    fetch_stock_price "TCS" ⟨Except.ok [[("Close", Value.num 1)]],
      Except.ok []⟩ = [] :=
  ⟨fetch_stock_price_total "TCS" _ (Or.inl ⟨"connection reset", rfl⟩),
   fetch_stock_price_total "TCS" _ (Or.inr (Or.inl ⟨"rate limited", rfl⟩)),
   fetch_stock_price_total "TCS" _ (Or.inr (Or.inr rfl))⟩

/-- Counterexample for C5: the macro-indicator job's `s3_upload`, invoked
with the empty Dataset, does perform a storage write (the source has no
empty-DataFrame guard), so "every job's Publisher treats the empty Dataset
as a no-op" is false. -/
theorem macro_upload_empty_dataset_writes :
    (macro_s3_upload (Except.ok ()) ⟨2025, 1, 2⟩ []).2 ≠ [] := by
  simp [macro_s3_upload]

/-- C5 as amended: only the interest-rate job's `s3_upload` guards the
empty Dataset — for it the call is a no-op success (no write, no error)
whatever the storage client would do — while the macro-indicator and
stock-history `s3_upload`s serialize and write unconditionally, the empty
Dataset included. -/
theorem publisher_empty_guard_fed_only (put : PutOutcome) (d : Date)
    (df : DataFrame) :
    fed_s3_upload put d [] = (Except.ok (), []) ∧
    (macro_s3_upload (Except.ok ()) d df).2 = [⟨macroKey d, df⟩] ∧
    (nifty_s3_upload (Except.ok ()) d df).2 = [⟨niftyKey d, df⟩] :=
  ⟨rfl, rfl, rfl⟩

/-- Counterexample for C6: the macro-indicator job, on a batch with zero
usable data (here: zero configured indicators, hence zero successful fetch
results), raises a batch-level error instead of returning a benign
"no data" signal. -/
theorem macro_zero_data_raises :
    (macro_lambda_handler "IN" [] (fun _ => MacroResp.body none)
        (Except.ok ()) ⟨2025, 1, 2⟩).result =
      Except.error "INDICATORS is empty in environment variables" := rfl

/-- C6 as amended: on a batch with zero usable data the interest-rate job
returns benign `None` and the stock-history job returns a benign
"No data retrieved" payload, but the macro-indicator job raises a
batch-level error. -/
theorem zero_data_outcome_by_job :
    (∀ (data : List (String × List Row)) (put : PutOutcome) (d : Date),
      (data.lookup "observations").getD [] = ([] : List Row) →
      fed_lambda_handler (FedFetch.success data) put d =
        ⟨Except.ok (), [], []⟩) ∧
    (∀ (completed : List DataFrame) (put : PutOutcome) (d : Date),
      (∀ df ∈ completed, df = ([] : DataFrame)) →
      (nifty_lambda_handler completed put d).result =
        Except.ok (some "No data retrieved")) ∧
    (∀ (country : String) (resp : String → MacroResp) (put : PutOutcome)
       (d : Date),
      ∃ e, (macro_lambda_handler country [] resp put d).result =
        Except.error e) := by
  refine ⟨?_, ?_, fun country resp put d => ⟨_, rfl⟩⟩
  · intro data put d h
    simp [fed_lambda_handler, h]
  · intro completed put d h
    have hc : nifty_collect completed = [] := by
      refine List.filter_eq_nil_iff.mpr ?_
      intro df hdf
      simp [h df hdf]
    simp [nifty_lambda_handler, hc]

/-- Witness for the amended C6 at concrete inputs: an empty observations
list, an all-empty completed batch, and an empty indicator set. -/
theorem zero_data_outcome_by_job_witness :
    fed_lambda_handler (FedFetch.success [("observations", [])])
        (Except.ok ()) ⟨2025, 1, 2⟩ = ⟨Except.ok (), [], []⟩ ∧
    (nifty_lambda_handler [[]] (Except.ok ()) ⟨2025, 1, 2⟩).result =
      Except.ok (some "No data retrieved") ∧
    (∃ e, (macro_lambda_handler "IN" [] (fun _ => MacroResp.body none)
        (Except.ok ()) ⟨2025, 1, 2⟩).result = Except.error e) :=
  ⟨zero_data_outcome_by_job.1 [("observations", [])] (Except.ok ())
      ⟨2025, 1, 2⟩ rfl,
   zero_data_outcome_by_job.2.1 [[]] (Except.ok ()) ⟨2025, 1, 2⟩
      (by decide),
   zero_data_outcome_by_job.2.2 "IN" (fun _ => MacroResp.body none)
      (Except.ok ()) ⟨2025, 1, 2⟩⟩

end Nifty50Etl

namespace Nifty50Etl

/-- Counterexample for C8: an interest-rate batch producing a non-empty
Dataset publishes its rows with column keys exactly as received — here
the key "Date", which normalization would have turned into "date" — so
"every column key of the published Dataset is lower-cased … in every
batch" is false. -/
theorem fed_publishes_unnormalized_key :
    (fed_lambda_handler
        (FedFetch.success [("observations", [[("Date", Value.str "2020-01-01")]])])
        (Except.ok ()) ⟨2025, 1, 2⟩).uploads =
      [[[("Date", Value.str "2020-01-01")]]] ∧
    normalizeKey "Date" ≠ "Date" := by
  exact ⟨rfl, by decide⟩

/-- C8 as amended: only the stock-history job normalizes column keys
(lower-case, spaces to underscores), and it does so on the merged frame
after concatenation — which, rows being key-value maps, equals normalizing
each unit's rows before the merge — while the interest-rate job publishes
the observation rows with keys exactly as received. -/
theorem normalization_stock_job_only :
    (∀ (completed : List DataFrame) (put : PutOutcome) (d : Date),
      ∀ df ∈ (nifty_lambda_handler completed put d).uploads,
        df = ((nifty_collect completed).map (List.map normalizeRow)).flatten) ∧
    (∀ (data : List (String × List Row)) (put : PutOutcome) (d : Date),
      ∀ df ∈ (fed_lambda_handler (FedFetch.success data) put d).uploads,
        df = (data.lookup "observations").getD []) := by
  constructor
  · intro completed put d df hdf
    by_cases h : (nifty_collect completed).isEmpty
    · simp [nifty_lambda_handler, h] at hdf
    · simp only [nifty_lambda_handler, h, Bool.false_eq_true, if_false,
        List.mem_singleton] at hdf
      subst hdf
      exact List.map_flatten ..
  · intro data put d df hdf
    by_cases h : ((data.lookup "observations").getD []).isEmpty
    · simp [fed_lambda_handler, h] at hdf
    · simp only [fed_lambda_handler, h, Bool.false_eq_true, if_false,
        List.mem_singleton] at hdf
      exact hdf

/-- Witness for the amended C8 at concrete inputs: a one-stock batch whose
"Close" key is published as "close", and a one-observation interest-rate
batch whose "Date" key is published untouched. -/
theorem normalization_stock_job_only_witness :
    ([[("close", Value.num 1)]] : DataFrame) =
      ((nifty_collect [[[("Close", Value.num 1)]]]).map
        (List.map normalizeRow)).flatten ∧
    ([[("Date", Value.str "2020-01-01")]] : DataFrame) =
      ((([("observations", [[("Date", Value.str "2020-01-01")]])] :
          List (String × List Row)).lookup "observations").getD []) :=
  ⟨normalization_stock_job_only.1 [[[("Close", Value.num 1)]]]
      (Except.ok ()) ⟨2025, 1, 2⟩ [[("close", Value.num 1)]] (by decide),
   normalization_stock_job_only.2
      [("observations", [[("Date", Value.str "2020-01-01")]])]
      (Except.ok ()) ⟨2025, 1, 2⟩ [[("Date", Value.str "2020-01-01")]]
      (by decide)⟩

end Nifty50Etl
